import Mathlib

/-!
Verification of the data-access layer of the cli-todolist repository
(src/task_manager/database.py, src/task_manager/models.py), as a shallow
embedding in Lean 4.

The relational state is the one created by init_db (database.py lines 43-78):
four tables, with the exact column lists of the CREATE TABLE statements.
Note that the tasks table created there has the columns
  id, title, description, created_at, updated_at, status, priority, category_id
and NO due_date column, although add_task / get_tasks / get_task all name a
due_date column in their SQL.  Statements are modelled with SQLite's
semantics (checked against SQLite 3.40): naming a column a table does not
have raises sqlite3.OperationalError, inserting a duplicate composite
primary key raises sqlite3.IntegrityError, and ON DELETE CASCADE is active
because get_db_connection (lines 15-26) executes PRAGMA foreign_keys = ON.
Python-level faults (a string applied as a function) are modelled as well.
Each operation either returns a value or stops with the first fault the
source raises, via Except.
-/

/-- Row of the categories table (init_db lines 43-49):
id INTEGER PRIMARY KEY, name TEXT NOT NULL UNIQUE, color TEXT DEFAULT
white, created_at TEXT DEFAULT CURRENT_TIMESTAMP. -/
structure CategoryRow where
  id : Nat
  name : String
  color : String
  created_at : String
deriving DecidableEq

/-- Row of the tasks table (init_db lines 51-62).  The column list is
id, title, description, created_at, updated_at, status, priority,
category_id — there is no due_date column. -/
structure TaskRow where
  id : Nat
  title : String
  description : Option String
  created_at : String
  updated_at : String
  status : String
  priority : String
  category_id : Option Nat
deriving DecidableEq

/-- Row of the tags table (init_db lines 64-69). -/
structure TagRow where
  id : Nat
  name : String
  created_at : String
deriving DecidableEq

/-- Row of the task_tags junction table (init_db lines 71-78), composite
primary key (task_id, tag_id), both foreign keys ON DELETE CASCADE. -/
structure TaskTagRow where
  task_id : Nat
  tag_id : Nat
deriving DecidableEq

/-- The database state: the four tables created by init_db. -/
structure DB where
  categories : List CategoryRow
  tasks : List TaskRow
  tags : List TagRow
  task_tags : List TaskTagRow
deriving DecidableEq

/-- Faults raised by the source, one constructor per raise site.
noSuchColumnIf: sqlite3.OperationalError, no such column: if
(update_tasks line 341, line 350).
noSuchColumnTDueDate: sqlite3.OperationalError, no such column: t.due_date
(the SELECT lists of get_tasks line 194 and get_task line 269).
noColumnDueDateInsert: sqlite3.OperationalError, table tasks has no column
named due_date (add_task lines 127-130).
strNotCallable: Python TypeError, str object is not callable (add_task
line 119, a missing comma turns the SQL string into a call).
noSuchColumnField: sqlite3.OperationalError, no such column: field
(update_tasks line 368, an f-string without braces yields SET field = ?).
pkViolationTaskTags: sqlite3.IntegrityError, UNIQUE constraint failed on
task_tags (a second insert of the same (task_id, tag_id) pair). -/
inductive DBError where
  | noSuchColumnIf
  | noSuchColumnTDueDate
  | noColumnDueDateInsert
  | strNotCallable
  | noSuchColumnField
  | pkViolationTaskTags
deriving DecidableEq

/-- The empty database, as after init_db creates the four tables in a
fresh file, before the default categories are seeded. -/
def emptyDB : DB := { categories := [], tasks := [], tags := [], task_tags := [] }

/-- Python truthiness of an optional string: None and the empty string are
falsy (used for `if task.category:` and the filter guards of get_tasks). -/
def optTruthy (o : Option String) : Bool :=
  match o with
  | none => false
  | some s => !s.isEmpty

/-- SQLite rowid assignment for the categories table: one more than the
largest existing id (1 for an empty table). -/
def newCategoryId (db : DB) : Nat :=
  (db.categories.foldl (fun m c => max m c.id) 0) + 1

/-- SQLite rowid assignment for the tags table. -/
def newTagId (db : DB) : Nat :=
  (db.tags.foldl (fun m t => max m t.id) 0) + 1

/-- INSERT INTO categories (name, color) VALUES (?,?) ON CONFLICT(name)
DO NOTHING (init_db lines 88-89): a row whose name already exists is left
untouched, otherwise a new row is appended with the next rowid. -/
def insertCategoryIgnore (db : DB) (now name color : String) : DB :=
  if db.categories.any (fun c => c.name == name) then db
  else { db with categories :=
          db.categories ++ [{ id := newCategoryId db, name := name,
                              color := color, created_at := now }] }

/-- The five default categories seeded by init_db (lines 80-86). -/
def defaultCategories : List (String × String) :=
  [("Work", "blue"), ("Personal", "green"), ("Health", "red"),
   ("Finance", "yellow"), ("Education", "cyan")]

/-- init_db (database.py lines 29-94): creates the four tables if absent
(the table set is the DB structure itself) and seeds the default
categories idempotently.  `now` stands for CURRENT_TIMESTAMP. -/
def init_db (db : DB) (now : String) : DB :=
  defaultCategories.foldl (fun d nc => insertCategoryIgnore d now nc.1 nc.2) db

/-- The validated task input consumed by add_task.  models.py in src only
declares the TaskStatus and TaskPriority enums; the Task model itself is
external ("externally-validated input struct" per the spec), so its fields
are taken from the attribute accesses of add_task (database.py lines
116-150): title, description, due_date (its isoformat string), status,
priority, category, tags.  (Named TaskInput here because Lean's core
already declares Task.) -/
structure TaskInput where
  title : String
  description : Option String := none
  due_date : Option String := none
  status : String := "pending"
  priority : String := "medium"
  category : Option String := none
  tags : List String := []
deriving DecidableEq

/-- add_task (database.py lines 97-154), statement by statement.
If task.category is truthy, line 119 runs
  cursor.execute("SELECT id FROM categories WHERE name = ?" (task.category,))
— the comma before the argument tuple is missing, so Python applies the
SQL string to the tuple: TypeError, raised before any SQL runs.
Otherwise lines 127-138 run
  INSERT INTO tasks (title, description, due_date, status, priority, category_id)
and the tasks table created by init_db has no column named due_date:
sqlite3.OperationalError.  Both faults precede the tag loop of lines
141-150, so control never reaches it and no call returns a task id. -/
def add_task (db : DB) (task : TaskInput) : Except DBError (DB × Nat) :=
  if optTruthy task.category then Except.error DBError.strNotCallable
  else Except.error DBError.noColumnDueDateInsert

/-- The optional filters of get_tasks (database.py lines 157-163). -/
structure Filters where
  status : Option String := none
  priority : Option String := none
  category : Option String := none
  tag : Option String := none
  search : Option String := none
deriving DecidableEq

/-- The LIKE pattern built for the search filter (line 224):
search_term = percent + search + percent. -/
def likePattern (s : String) : String := "%" ++ s ++ "%"

/-- The bound parameters of the WHERE clause assembled by get_tasks
(database.py lines 201-226), in order: status, priority, category, then
the search term twice.  The tag filter (lines 204-208) only appends the
two JOIN lines to the query text; it never appends a predicate or binds
the tag value, so the tag name does not occur among the parameters. -/
def whereParams (f : Filters) : List String :=
  (match f.status with | some s => if s.isEmpty then [] else [s] | none => [])
  ++ (match f.priority with | some p => if p.isEmpty then [] else [p] | none => [])
  ++ (match f.category with | some c => if c.isEmpty then [] else [c] | none => [])
  ++ (match f.search with
      | some s => if s.isEmpty then [] else [likePattern s, likePattern s]
      | none => [])

/-- One hydrated result row of get_tasks / get_task, per their SELECT
lists and the tags hydration loop. -/
structure TaskRecord where
  id : Nat
  title : String
  description : Option String
  due_date : Option String
  status : String
  priority : String
  category : Option String
  category_color : Option String
  tags : List String
deriving DecidableEq

/-- get_tasks (database.py lines 157-244).  The query string is assembled
(JOINs for a truthy tag filter, WHERE from whereParams, ORDER BY
t.due_date ASC, t.priority DESC, t.id DESC LIMIT ?), then line 232
executes it.  Its SELECT list (lines 192-199) names t.due_date, a column
the tasks table does not have, so every execution raises
sqlite3.OperationalError (no such column: t.due_date) regardless of the
database state, the filters and the limit; the hydration loop of lines
235-242 is unreachable. -/
def get_tasks (db : DB) (f : Filters) (lim : Nat) : Except DBError (List TaskRecord) :=
  Except.error DBError.noSuchColumnTDueDate

/-- get_task (database.py lines 247-290).  Line 267 executes a SELECT
whose list (line 269) names t.due_date; as in get_tasks this raises
sqlite3.OperationalError (no such column: t.due_date) before fetchone, so
no call returns a record and no call returns None. -/
def get_task (db : DB) (task_id : Nat) : Except DBError (Option TaskRecord) :=
  Except.error DBError.noSuchColumnTDueDate

/-- Bool test used by delete_task and update_tasks: SELECT id FROM tasks
WHERE id = ? followed by fetchone (a row exists with that id). -/
def taskExists (db : DB) (task_id : Nat) : Bool :=
  db.tasks.any (fun t => t.id == task_id)

/-- delete_task (database.py lines 293-313).  SELECT id FROM tasks WHERE
id = ?: if fetchone is empty, return False with the state untouched.
Otherwise DELETE FROM tasks WHERE id = ? removes the task row, and the
ON DELETE CASCADE of task_tags.task_id (init_db line 76, active through
PRAGMA foreign_keys = ON) removes every association row of that task;
return True. -/
def delete_task (db : DB) (task_id : Nat) : DB × Bool :=
  if db.tasks.any (fun t => t.id == task_id) then
    ({ db with tasks := db.tasks.filter (fun t => t.id != task_id),
               task_tags := db.task_tags.filter (fun a => a.task_id != task_id) },
     true)
  else (db, false)

/-- A Python value stored in the task_data dictionary of update_tasks. -/
inductive PyVal where
  | pstr (s : String)
  | pint (n : Nat)
  | plist (l : List String)
  | pnone
deriving DecidableEq

/-- The task_data dictionary of update_tasks: keys in insertion order. -/
def TaskData := List (String × PyVal)
deriving DecidableEq

/-- Dictionary key membership. -/
def hasKey (d : TaskData) (k : String) : Bool :=
  d.any (fun p => p.1 == k)

/-- update_tasks (database.py lines 316-388).  Its first statement,
line 341, is
  cursor.execute("SELECT if FROM TASKS WHERE id = ?", (task_id,))
— `if` in place of `id` — and the tasks table has no column named if, so
sqlite3.OperationalError propagates at once, for every state, id and
dictionary.  Control leaves before task_data is read or written: the
category branch (lines 346-359), the tags pop (line 361), the due_date
normalization (lines 362-363), the UPDATE (lines 365-372) and the tag
replacement (lines 374-385) are all unreachable, and the caller's
dictionary is handed back exactly as supplied.  The result pairs the
raised fault (or the returned Bool) with the dictionary as the caller
observes it afterwards. -/
def update_tasks (db : DB) (task_id : Nat) (task_data : TaskData) :
    Except DBError (DB × Bool) × TaskData :=
  (Except.error DBError.noSuchColumnIf, task_data)

/-- The category arm of update_tasks for a truthy category name (lines
348-357), the resolve-or-create pattern of the spec for categories:
its lookup is
  cursor.execute("SELECT if FROM categories WHERE name = ?", (category_name,))
(line 350) — again `if` for `id` — so it raises sqlite3.OperationalError
(no such column: if) for every state and name, and never yields an
identifier.  (The category lookup of add_task, line 119, fails even
earlier, with the TypeError described at add_task.) -/
def resolveCategoryUpdate (db : DB) (name : String) : Except DBError (DB × Nat) :=
  Except.error DBError.noSuchColumnIf

/-- INSERT INTO tags (name) VALUES (?) ON CONFLICT(name) DO NOTHING
(add_task line 144, update_tasks lines 378-380): append a fresh row with
the next rowid unless a row with that name exists. -/
def insertTagIgnore (db : DB) (name : String) : DB :=
  if db.tags.any (fun t => t.name == name) then db
  else { db with tags :=
          db.tags ++ [{ id := newTagId db, name := name, created_at := "" }] }

/-- SELECT id FROM tags WHERE name = ? followed by fetchone (add_task
line 146, update_tasks line 381): the id of the first row with that name,
none if the table has no such row. -/
def selectTagId (db : DB) (name : String) : Option Nat :=
  ((db.tags.filter (fun t => t.name == name)).head?).map (fun t => t.id)

/-- The resolve-or-create pattern for tags as inlined in add_task lines
143-147 and update_tasks lines 377-382: the idempotent insert followed by
the lookup.  (In the source this pattern sits behind the unconditional
faults of add_task and update_tasks, so it is never reached.) -/
def resolveOrCreateTag (db : DB) (name : String) : DB × Option Nat :=
  let db1 := insertTagIgnore db name
  (db1, selectTagId db1 name)

/-- Number of rows of the tags table carrying a given name. -/
def countTagName (db : DB) (name : String) : Nat :=
  (db.tags.filter (fun t => t.name == name)).length

/-- INSERT INTO task_tags (task_id, tag_id) VALUES (?,?) (add_task line
149, update_tasks lines 383-385): inserting a pair already present
violates the composite primary key (sqlite3.IntegrityError); otherwise
the row is appended. -/
def insertTaskTag (db : DB) (task_id tag_id : Nat) : Except DBError DB :=
  if db.task_tags.any (fun a => a.task_id == task_id && a.tag_id == tag_id) then
    Except.error DBError.pkViolationTaskTags
  else Except.ok { db with task_tags := db.task_tags ++ [{ task_id := task_id, tag_id := tag_id }] }

/-! Helper lemmas about filtering, shared by the delete_task and resolver
theorems. -/

theorem any_key_filter_ne {α : Type} (f : α → Nat) (i : Nat) (l : List α) :
    (l.filter (fun a => f a != i)).any (fun a => f a == i) = false := by
  rw [List.any_eq_false]
  intro a ha
  have h2 := (List.mem_filter.mp ha).2
  simp only [bne_iff_ne, ne_eq] at h2
  simp [h2]

theorem all_filter_self {α : Type} (p : α → Bool) (l : List α) :
    (l.filter p).all p = true := by
  rw [List.all_eq_true]
  intro a ha
  exact (List.mem_filter.mp ha).2

theorem mem_any_decide {α : Type} [DecidableEq α] (l : List α) (t : α) (h : t ∈ l) :
    l.any (fun u => decide (u = t)) = true := by
  rw [List.any_eq_true]
  exact ⟨t, h, by simp⟩

theorem kept_filter {α : Type} [DecidableEq α] (f : α → Nat) (i : Nat) (l : List α) :
    l.all (fun t => f t == i || (l.filter (fun u => f u != i)).any (fun u => decide (u = t))) = true := by
  rw [List.all_eq_true]
  intro t ht
  by_cases h : f t = i
  · simp [h]
  · have hm : t ∈ l.filter (fun u => f u != i) := List.mem_filter.mpr ⟨ht, by simp [h]⟩
    simp [mem_any_decide _ _ hm]

theorem filter_sub_any {α : Type} [DecidableEq α] (p : α → Bool) (l : List α) :
    (l.filter p).all (fun t => l.any (fun u => decide (u = t))) = true := by
  rw [List.all_eq_true]
  intro t ht
  exact mem_any_decide l t (List.mem_filter.mp ht).1

theorem filter_eq_nil_of_any_false {α : Type} (p : α → Bool) (l : List α)
    (h : l.any p = false) : l.filter p = [] := by
  rw [List.filter_eq_nil_iff]
  intro a ha
  rw [List.any_eq_false] at h
  exact h a ha

/-! Concrete fixtures used by the closed theorems below. -/

/-- A pending task row with identifier 1 and no category or tags. -/
def taskRow1 : TaskRow :=
  { id := 1, title := "Write report", description := none,
    created_at := "2024-01-01T00:00:00", updated_at := "2024-01-01T00:00:00",
    status := "pending", priority := "medium", category_id := none }

/-- A database holding exactly the task taskRow1. -/
def dbOne : DB := { categories := [], tasks := [taskRow1], tags := [], task_tags := [] }

/-- The partial-update dictionary of the spec's own example:
only a status field. -/
def dStatusOnly : TaskData := [("status", PyVal.pstr "completed")]

/-- A partial-update dictionary touching only the priority field. -/
def dPriorityOnly : TaskData := [("priority", PyVal.pstr "high")]

/-- Claim C1: the claim says update_tasks on an existing task modifies
exactly the fields present in the mapping, keeps the category when no
category key is supplied, and resolves or clears the category when one
is.  The code never gets that far: its first statement, SELECT if FROM
TASKS WHERE id = ? (line 341, `if` for `id`), raises
sqlite3.OperationalError on every call, here evaluated at an existing
task (id 1) and the one-field mapping of the spec's own example. -/
theorem update_tasks_raises_on_existing_task :
    taskExists dbOne 1 = true ∧
    update_tasks dbOne 1 dStatusOnly = (Except.error DBError.noSuchColumnIf, dStatusOnly) :=
  ⟨by decide, rfl⟩

/-- Claim C2: the claim says get_tasks with a tag filter returns exactly
the tasks associated with a tag of that name, without duplicates.  The
code contradicts this twice over: every execution of the assembled query
raises sqlite3.OperationalError (its SELECT list names t.due_date, a
column the tasks table lacks), and the assembled WHERE clause never
mentions the tag at all — the tag value is not among the bound
parameters, the tag filter only adds two unconditional JOIN lines. -/
theorem get_tasks_tag_filter_unused :
    (∀ (db : DB) (name : String) (lim : Nat),
        get_tasks db { tag := some name } lim = Except.error DBError.noSuchColumnTDueDate)
    ∧ (∀ name : String, whereParams { tag := some name } = []) :=
  ⟨fun _ _ _ => rfl, fun _ => rfl⟩

/-- A database with three tasks of distinct priorities, an input on which
the claimed ordered listing should be observable. -/
def dbThree : DB :=
  { categories := [], tags := [], task_tags := [],
    tasks :=
      [{ taskRow1 with id := 1, priority := "low" },
       { taskRow1 with id := 2, priority := "high" },
       { taskRow1 with id := 3, priority := "medium" }] }

/-- Claim C3, counterexample: the claim says get_tasks returns a sequence
ordered by due date (nulls last), then priority in the enum order, then
id.  At this concrete database and the empty filter set, get_tasks
returns no sequence at all — the query raises sqlite3.OperationalError
because its SELECT list names t.due_date — so the claimed ordered
sequence does not exist. -/
theorem get_tasks_ordering_cex :
    (get_tasks dbThree {} 100).isOk = false :=
  rfl

/-- Claim C3, amended: for every database state, filter combination and
limit, get_tasks raises sqlite3.OperationalError (no such column:
t.due_date) and returns no sequence, so no ordering is ever exhibited.
(Independently, the ORDER BY it would run — t.due_date ASC, t.priority
DESC, t.id DESC — sorts NULL due dates first under SQLite and compares
the priority TEXT lexicographically, urgent before medium before low
before high, not in the enum order the claim states.) -/
theorem get_tasks_always_errors :
    ∀ (db : DB) (f : Filters) (lim : Nat),
      get_tasks db f lim = Except.error DBError.noSuchColumnTDueDate :=
  fun _ _ _ => rfl

/-- Claim C4: the claim says update_tasks on a nonexistent identifier
returns false, raises nothing and changes nothing.  The code raises
sqlite3.OperationalError (no such column: if) on its very first
statement instead, here evaluated at identifier 1 against the empty
database; it never reaches the fetchone that would yield False.  (The
state is indeed left unchanged, but through a fault, not a return.) -/
theorem update_tasks_raises_on_missing_task :
    taskExists emptyDB 1 = false ∧
    update_tasks emptyDB 1 dPriorityOnly = (Except.error DBError.noSuchColumnIf, dPriorityOnly) :=
  ⟨by decide, rfl⟩

/-- Claim C5: the claim says add_task returns the new identifier and
get_task then reflects every supplied field.  The code never returns an
identifier: with a truthy category it raises TypeError at the category
lookup (line 119, the SQL string is applied as a function), and
otherwise its INSERT names the nonexistent due_date column and raises
sqlite3.OperationalError — for every database state and every input. -/
theorem add_task_always_errors :
    ∀ (db : DB) (task : TaskInput),
      add_task db task =
        Except.error (if optTruthy task.category then DBError.strNotCallable
                      else DBError.noColumnDueDateInsert) := by
  intro db task
  by_cases h : optTruthy task.category <;> simp [add_task, h]

/-- Claim C6: the claim says get_task returns the full record or None,
never raising for the not-found case.  The code raises
sqlite3.OperationalError on every call — the SELECT list of line 269
names t.due_date, which the tasks table lacks — so it neither returns a
record nor returns None, for any identifier, present or absent.  (Its
SELECT list also omits the created_at and updated_at fields the claim
requires of the record.) -/
theorem get_task_always_errors :
    ∀ (db : DB) (i : Nat), get_task db i = Except.error DBError.noSuchColumnTDueDate :=
  fun _ _ => rfl

/-- The task input of the C9 counterexample: a title and the tag name
repeated twice. -/
def taskDupTags : TaskInput := { title := "t", tags := ["a", "a"] }

/-- Claim C9, counterexample: the claim says add_task deduplicates the
supplied tag names, so a call with a repeated name succeeds with one
association per distinct name.  At the freshly initialized database and
this input the call does not succeed: it raises sqlite3.OperationalError
at the task INSERT (no due_date column), before the tag loop.  (The tag
loop itself, lines 141-150, contains no deduplication: it would run once
per occurrence, and the second INSERT of the same (task_id, tag_id) pair
would violate the composite primary key.) -/
theorem add_task_dup_tags_cex :
    taskDupTags.tags = ["a", "a"] ∧
    add_task (init_db emptyDB "2024-01-01T00:00:00") taskDupTags
      = Except.error DBError.noColumnDueDateInsert :=
  ⟨rfl, rfl⟩

/-- Claim C9, amended: add_task performs no deduplication and never
succeeds — every call fails before inserting any association row (a
truthy category causes a TypeError at the category lookup; otherwise the
task INSERT fails on the missing due_date column), so add_task alone
never produces duplicate associations; the stored tag set can only be
kept duplicate-free by the composite primary key of task_tags. -/
theorem add_task_never_ok :
    ∀ (db : DB) (task : TaskInput), (add_task db task).isOk = false := by
  intro db task
  by_cases h : optTruthy task.category <;> simp [add_task, h, Except.isOk, Except.toBool]

/-- The update dictionary of the C10 counterexample: category, tags and
status keys, as a caller of update_tasks would supply them. -/
def dFull : TaskData :=
  [("category", PyVal.pstr "Work"), ("tags", PyVal.plist ["a"]),
   ("status", PyVal.pstr "completed")]

/-- Claim C10, counterexample: the claim says a call on an existing task
mutates the caller's dictionary — removing the category and tags keys
and adding category_id and updated_at.  At this existing task and
dictionary the call raises on its first statement and hands the
dictionary back exactly as supplied: category and tags are still
present, category_id and updated_at are not. -/
theorem update_tasks_no_mutation_cex :
    taskExists dbOne 1 = true
    ∧ (update_tasks dbOne 1 dFull).2 = dFull
    ∧ hasKey (update_tasks dbOne 1 dFull).2 "category" = true
    ∧ hasKey (update_tasks dbOne 1 dFull).2 "tags" = true
    ∧ hasKey (update_tasks dbOne 1 dFull).2 "category_id" = false
    ∧ hasKey (update_tasks dbOne 1 dFull).2 "updated_at" = false := by
  refine ⟨by decide, rfl, ?_, ?_, ?_, ?_⟩ <;> decide

/-- Claim C10, amended: update_tasks never mutates the caller's task_data
mapping: its first statement (SELECT if FROM TASKS WHERE id = ?, line
341) raises sqlite3.OperationalError before any key is read, removed or
added, so the mapping is handed back exactly as supplied, for every
state, identifier and mapping. -/
theorem update_tasks_leaves_task_data :
    ∀ (db : DB) (i : Nat) (d : TaskData),
      update_tasks db i d = (Except.error DBError.noSuchColumnIf, d) :=
  fun _ _ _ => rfl

/-! Lemmas about the inlined tag resolve-or-create pattern. -/

theorem insertTagIgnore_mem (db : DB) (name : String) :
    (insertTagIgnore db name).tags.any (fun t => t.name == name) = true := by
  unfold insertTagIgnore
  by_cases h : db.tags.any (fun t => t.name == name) = true
  · simp [h]
  · simp only [Bool.not_eq_true] at h
    simp [h, List.any_append]

theorem insertTagIgnore_stable (db : DB) (name : String) :
    insertTagIgnore (insertTagIgnore db name) name = insertTagIgnore db name := by
  have h := insertTagIgnore_mem db name
  generalize hx : insertTagIgnore db name = x at h ⊢
  rw [insertTagIgnore, if_pos h]

theorem selectTagId_isSome (db : DB) (name : String) :
    (selectTagId (insertTagIgnore db name) name).isSome = true := by
  have h := insertTagIgnore_mem db name
  rw [List.any_eq_true] at h
  obtain ⟨t, ht, hp⟩ := h
  have hm : t ∈ (insertTagIgnore db name).tags.filter (fun t => t.name == name) :=
    List.mem_filter.mpr ⟨ht, hp⟩
  unfold selectTagId
  cases hf : (insertTagIgnore db name).tags.filter (fun t => t.name == name) with
  | nil => rw [hf] at hm; cases hm
  | cons a l => rfl

theorem countTagName_insert (db : DB) (name : String) (h : countTagName db name ≤ 1) :
    countTagName (insertTagIgnore db name) name = 1 := by
  simp only [countTagName] at h ⊢
  unfold insertTagIgnore
  by_cases hp : db.tags.any (fun t => t.name == name) = true
  · simp only [hp, if_true]
    rw [List.any_eq_true] at hp
    obtain ⟨t, ht, hpt⟩ := hp
    have h1 : 0 < (db.tags.filter (fun t => t.name == name)).length :=
      List.length_pos_of_mem (List.mem_filter.mpr ⟨ht, hpt⟩)
    exact Nat.le_antisymm h h1
  · simp only [Bool.not_eq_true] at hp
    simp [hp, List.filter_append, filter_eq_nil_of_any_false _ _ hp]

/-- Claim C7: the claim says the resolve-or-create operation is
idempotent for categories and for tags alike.  It splits on the code:
the category pattern of update_tasks (lines 348-357) looks rows up with
SELECT if FROM categories WHERE name = ? — `if` for `id` — so it raises
sqlite3.OperationalError for every state and name and never yields an
identifier (and the category lookup of add_task fails even earlier, with
a TypeError); the inlined tag pattern (add_task lines 143-147,
update_tasks lines 377-382) is genuinely idempotent: under the UNIQUE
constraint invariant (at most one row per name), running it twice gives
the same state and the same identifier, the identifier exists, and
exactly one row with that name remains.  (Both patterns sit behind the
unconditional faults of their enclosing functions, so neither is ever
reached by a caller.) -/
theorem resolver_category_faults_tag_idempotent :
    (∀ (db : DB) (name : String),
        resolveCategoryUpdate db name = Except.error DBError.noSuchColumnIf)
    ∧ (∀ (db : DB) (name : String), countTagName db name ≤ 1 →
        resolveOrCreateTag (resolveOrCreateTag db name).1 name = resolveOrCreateTag db name
        ∧ (resolveOrCreateTag db name).2.isSome = true
        ∧ countTagName (resolveOrCreateTag db name).1 name = 1) := by
  refine ⟨fun _ _ => rfl, fun db name h => ⟨?_, ?_, ?_⟩⟩
  · simp only [resolveOrCreateTag, insertTagIgnore_stable]
  · simp only [resolveOrCreateTag]
    exact selectTagId_isSome db name
  · simp only [resolveOrCreateTag]
    exact countTagName_insert db name h

/-- Witness for C7: the hypothesis of the tag half (names unique, the
UNIQUE constraint) holds on the empty database, and the conclusion is
evaluated at the tag name of the spec's example. -/
theorem resolver_tag_witness :
    countTagName emptyDB "urgent-fix" ≤ 1
    ∧ (resolveOrCreateTag (resolveOrCreateTag emptyDB "urgent-fix").1 "urgent-fix"
          = resolveOrCreateTag emptyDB "urgent-fix"
       ∧ (resolveOrCreateTag emptyDB "urgent-fix").2.isSome = true
       ∧ countTagName (resolveOrCreateTag emptyDB "urgent-fix").1 "urgent-fix" = 1) :=
  ⟨by decide, resolver_category_faults_tag_idempotent.2 emptyDB "urgent-fix" (by decide)⟩

/-- Claim C8: delete_task on a missing identifier returns false and
leaves the whole state (so every table's row count) unchanged; on an
existing identifier it returns true, removes the task row, removes every
tag association of that task (the cascade), keeps every other task row
and association, leaves categories and tags untouched, and a repeated
call on the already-deleted identifier returns false with the state
unchanged. -/
theorem delete_task_contract (db : DB) (i : Nat) :
    (taskExists db i = false → delete_task db i = (db, false))
    ∧ (taskExists db i = true →
        (delete_task db i).2 = true
        ∧ taskExists (delete_task db i).1 i = false
        ∧ (delete_task db i).1.task_tags.all (fun a => a.task_id != i) = true
        ∧ db.tasks.all (fun t => t.id == i
            || (delete_task db i).1.tasks.any (fun u => decide (u = t))) = true
        ∧ db.task_tags.all (fun a => a.task_id == i
            || (delete_task db i).1.task_tags.any (fun b => decide (b = a))) = true
        ∧ (delete_task db i).1.tasks.all (fun t =>
            db.tasks.any (fun u => decide (u = t))) = true
        ∧ (delete_task db i).1.task_tags.all (fun a =>
            db.task_tags.any (fun b => decide (b = a))) = true
        ∧ (delete_task db i).1.categories = db.categories
        ∧ (delete_task db i).1.tags = db.tags
        ∧ delete_task (delete_task db i).1 i = ((delete_task db i).1, false)) := by
  constructor
  · intro h
    simp only [taskExists] at h
    simp [delete_task, h]
  · intro h
    simp only [taskExists] at h
    have hd : delete_task db i =
        ({ db with tasks := db.tasks.filter (fun t => t.id != i),
                   task_tags := db.task_tags.filter (fun a => a.task_id != i) }, true) := by
      simp [delete_task, h]
    rw [hd]
    refine ⟨rfl, ?_, ?_, ?_, ?_, ?_, ?_, rfl, rfl, ?_⟩
    · exact any_key_filter_ne (fun t => t.id) i db.tasks
    · exact all_filter_self _ _
    · exact kept_filter (fun t => t.id) i db.tasks
    · exact kept_filter (fun a => a.task_id) i db.task_tags
    · exact filter_sub_any _ db.tasks
    · exact filter_sub_any _ db.task_tags
    · have h2 := any_key_filter_ne (fun t => t.id) i db.tasks
      simp [delete_task, h2]

/-- A second task row, tagged like taskRow1, for the delete witness. -/
def taskRow2 : TaskRow := { taskRow1 with id := 2, title := "Other" }

/-- A database with two tasks, one tag, and one association per task:
deleting task 1 must cascade to its association and keep task 2's. -/
def wDB8 : DB :=
  { categories := [{ id := 1, name := "Work", color := "blue", created_at := "" }],
    tasks := [taskRow1, taskRow2],
    tags := [{ id := 1, name := "a", created_at := "" }],
    task_tags := [{ task_id := 1, tag_id := 1 }, { task_id := 2, tag_id := 1 }] }

/-- Witness for C8: both hypotheses are satisfiable — identifier 5 is
absent from wDB8 and identifier 1 is present — and both branches of the
contract are instantiated there. -/
theorem delete_task_contract_witness :
    (taskExists wDB8 5 = false ∧ delete_task wDB8 5 = (wDB8, false))
    ∧ (taskExists wDB8 1 = true
       ∧ ((delete_task wDB8 1).2 = true
          ∧ taskExists (delete_task wDB8 1).1 1 = false
          ∧ (delete_task wDB8 1).1.task_tags.all (fun a => a.task_id != 1) = true
          ∧ wDB8.tasks.all (fun t => t.id == 1
              || (delete_task wDB8 1).1.tasks.any (fun u => decide (u = t))) = true
          ∧ wDB8.task_tags.all (fun a => a.task_id == 1
              || (delete_task wDB8 1).1.task_tags.any (fun b => decide (b = a))) = true
          ∧ (delete_task wDB8 1).1.tasks.all (fun t =>
              wDB8.tasks.any (fun u => decide (u = t))) = true
          ∧ (delete_task wDB8 1).1.task_tags.all (fun a =>
              wDB8.task_tags.any (fun b => decide (b = a))) = true
          ∧ (delete_task wDB8 1).1.categories = wDB8.categories
          ∧ (delete_task wDB8 1).1.tags = wDB8.tags
          ∧ delete_task (delete_task wDB8 1).1 1 = ((delete_task wDB8 1).1, false))) :=
  ⟨⟨by decide, (delete_task_contract wDB8 5).1 (by decide)⟩,
   ⟨by decide, (delete_task_contract wDB8 1).2 (by decide)⟩⟩
